import Mathlib

/-!
Shallow embedding of the Decision Engine of the `validate-a2a` GitHub
action.  The repository holds two near-duplicate variants of the engine:

* `src/src/index.ts` — the current variant; reads the keys `success` and
  `total`.  Embedded below as `interpret` (modelling lines 59–158 of the
  file: everything from the captured stdout/stderr to the final job
  outcome).
* `src/unnamed/part_000` — the legacy variant; reads the keys `valid` and
  `score`.  Embedded below as `legacyInterpret` (lines 59–131).

JSON values and the fragment of JavaScript semantics the two functions
exercise (truthiness, property access — which throws a `TypeError` on
`null`/`undefined` receivers —, optional chaining, `||`, template-string
rendering, `Array.prototype.forEach`) are modelled explicitly.  A thrown
exception is caught by the `try`/`catch` wrapper of `run`, which turns it
into a failed job outcome carrying the error message; the embedding keeps
the outputs and log lines emitted before the throw, exactly as the
side-effecting `core.setOutput` / `core.info` calls do.
-/

/-- A JavaScript value as produced by `JSON.parse`, extended with
`undefined` (the result of reading an absent property). -/
inductive JsVal where
  | undefined
  | null
  | bool (b : Bool)
  | num (n : Int)
  | str (s : String)
  | arr (elems : List JsVal)
  | obj (fields : List (String × JsVal))

/-- JavaScript truthiness. -/
def jsTruthy : JsVal → Bool
  | .undefined => false
  | .null => false
  | .bool b => b
  | .num n => n != 0
  | .str s => !s.isEmpty
  | .arr _ => true
  | .obj _ => true

/-- Whether a value is `null` or `undefined` (the receivers on which a
property read throws, and the values short-circuited by `?.`). -/
def isNullish : JsVal → Bool
  | .undefined => true
  | .null => true
  | _ => false

/-- Whether a value is exactly `null` (JavaScript strict comparison
`=== null`). -/
def jsIsNull : JsVal → Bool
  | .null => true
  | _ => false

mutual

/-- Rendering of a value inside a template string, or by `.toString()`:
numbers print in decimal, arrays join their elements with commas
(`null`/`undefined` elements joining as the empty string), plain objects
print as `[object Object]`.  Only integral numbers appear in this
code base, so numbers are modelled as `Int`. -/
def jsToString : JsVal → String
  | .undefined => "undefined"
  | .null => "null"
  | .bool b => cond b ("true") ("false")
  | .num n => toString n
  | .str s => s
  | .obj _ => "[object Object]"
  | .arr vs => jsJoin vs

/-- `Array.prototype.join` with the default comma separator, as used by
`Array.prototype.toString`. -/
def jsJoin : List JsVal → String
  | [] => ""
  | v :: vs =>
    let head := match v with
      | .undefined => ""
      | .null => ""
      | w => jsToString w
    match vs with
    | [] => head
    | _ => head ++ "," ++ jsJoin vs

end

/-- `ToNumber` coercion, restricted to the integral fragment this code
can produce: `none` stands for `NaN`.  Strings (and arrays, through
their join) yield their integer reading; a blank string is `0`. -/
def jsToNumber : JsVal → Option Int
  | .undefined => none
  | .null => some 0
  | .bool b => some (cond b 1 0)
  | .num n => some n
  | .str s => if s.trim.isEmpty then some 0 else s.trim.toInt?
  | .arr vs =>
    let s := jsJoin vs
    if s.trim.isEmpty then some 0 else s.trim.toInt?
  | .obj _ => none

/-- The comparison `v > 0` (`NaN` comparisons are false). -/
def jsGtZero (v : JsVal) : Bool :=
  match jsToNumber v with
  | some n => decide (0 < n)
  | none => false

/-- Property read `v.k`.  Throws a `TypeError` when the receiver is
`null` or `undefined`; on an object it returns the field or `undefined`;
arrays and strings expose `length`; other primitives have no modelled
properties. -/
def getProp : JsVal → String → Except String JsVal
  | .undefined, k => .error ("Cannot read properties of undefined (reading " ++ k ++ ")")
  | .null, k => .error ("Cannot read properties of null (reading " ++ k ++ ")")
  | .obj fields, k => .ok (((fields.find? (fun p => p.1 = k)).map (fun p => p.2)).getD .undefined)
  | .arr vs, k => .ok (if k = "length" then .num vs.length else .undefined)
  | .str s, k => .ok (if k = "length" then .num s.length else .undefined)
  | _, _ => .ok .undefined

/-- Property read on a receiver already known to be non-nullish (after a
truthiness guard, say), where the read cannot throw. -/
def getPropD (v : JsVal) (k : String) : JsVal :=
  ((getProp v k).toOption).getD .undefined

/-- Optional chaining `v?.k`. -/
def optChain (v : JsVal) (k : String) : JsVal :=
  if isNullish v then .undefined else getPropD v k

/-- The operator `a || b`. -/
def jsOr (a b : JsVal) : JsVal :=
  cond (jsTruthy a) a b

/-- Optional-chained stringification `v?.toString()`: `undefined` when
`v` is nullish, otherwise the rendered string. -/
def optToStr (v : JsVal) : JsVal :=
  if isNullish v then .undefined else .str (jsToString v)

/-- A direct call `v.toString()`, which throws on a nullish receiver. -/
def jsCallToString (v : JsVal) : Except String String :=
  if isNullish v then
    .error ("Cannot read properties of " ++ jsToString v ++ " (reading toString)")
  else
    .ok (jsToString v)

/-- Severity of a log line written through the host capability interface
(`core.debug` / `core.info` / `core.warning` / `core.error`). -/
inductive Severity where
  | debug
  | info
  | warning
  | error
deriving DecidableEq

/-- The job's final state: success, or failure with the message passed to
`core.setFailed`. -/
inductive JobOutcome where
  | success
  | failure (msg : String)
deriving DecidableEq

/-- Everything the engine produces: the named outputs in emission order,
the log plan, the job outcome, and whether the outcome was produced by
the top-level `catch` handler (i.e. an exception was thrown and
caught). -/
structure EngineResult where
  outputs : List (String × String)
  logs : List (Severity × String)
  outcome : JobOutcome
  caught : Bool
deriving DecidableEq

/-- Name lookup in the emitted outputs (the host publishes each name
once; emission order is preserved). -/
def getOutput (res : EngineResult) (k : String) : Option String :=
  ((res.outputs.find? (fun p => p.1 = k)).map (fun p => p.2))

/-- Sequential rendering of a list of elements, stopping at the first
throw (the semantics of the `forEach` bodies below). -/
def renderAll (render : JsVal → Except String String) : List JsVal → Except String (List String)
  | [] => .ok []
  | v :: vs =>
    match render v with
    | .error e => .error e
    | .ok s =>
      match renderAll render vs with
      | .error e => .error e
      | .ok ss => .ok (s :: ss)

/-- `Array.prototype.forEach` over the value `v`, rendering each element
with `render`; a `TypeError` when `v` is not an array (`owner` names the
expression for the error message). -/
def forEachRender (owner : String) (render : JsVal → Except String String) (v : JsVal) : Except String (List String) :=
  match v with
  | .arr vs => renderAll render vs
  | _ => .error (owner ++ ".forEach is not a function")

/-- Header of the error-findings block: the text of
`core.error` at line 126 of `src/index.ts` (and line 99 of the legacy
variant). -/
def errHeader (n : String) : String :=
  "❌ Found " ++ n ++ " error(s):"

/-- Header of the warning-findings block (line 135 / legacy line 108). -/
def warnHeader (n : String) : String :=
  "⚠️  Found " ++ n ++ " warning(s):"

/-- One finding rendered by the current variant:
`` `  - ${err.message || err}` `` (line 128 of `src/index.ts`).  Reading
`.message` throws when the entry is nullish. -/
def renderFinding (f : JsVal) : Except String String :=
  match getProp f ("message") with
  | .error e => .error e
  | .ok m => .ok (jsToString (jsOr m f))

/-- Findings display of the current variant (lines 124–139 of
`src/index.ts`): guarded by `result.errors && result.errors.length > 0`,
it writes a blank info line, the header, and one line per element. -/
def findingsStep (owner : String) (v : JsVal) (sev : Severity) (mkHeader : String → String) : Except String (List (Severity × String)) :=
  if jsTruthy v && jsGtZero (getPropD v ("length")) then
    match forEachRender owner renderFinding v with
    | .error e => .error e
    | .ok msgs =>
      .ok ((Severity.info, "") :: (sev, mkHeader (jsToString (getPropD v ("length")))) :: msgs.map (fun m => (sev, "  - " ++ m)))
  else
    .ok []

/-- Scoring outputs and display of the current variant (lines 85–121 of
`src/index.ts`).  When `scoringResult` is truthy the four outputs come
from optional-chained reads of `total` (with `|| '0'`, resp.
`|| 'not-tested'`, fallbacks) and `productionReady || false`; otherwise
the sentinel outputs `N/A`/`N/A`/`N/A`/`false` are emitted.  No
expression in this region can throw. -/
def scoringStep (sr : JsVal) : List (String × String) × List (Severity × String) :=
  if jsTruthy sr then
    let comp := getPropD sr ("compliance")
    let tru := getPropD sr ("trust")
    let avail := getPropD sr ("availability")
    let prodR := getPropD sr ("productionReady")
    let outs := [
      ("compliance-score", jsToString (jsOr (optToStr (optChain comp ("total"))) (.str "0"))),
      ("trust-score", jsToString (jsOr (optToStr (optChain tru ("total"))) (.str "0"))),
      ("availability-score", jsToString (jsOr (optToStr (optChain avail ("total"))) (.str "not-tested"))),
      ("production-ready", jsToString (jsOr prodR (.bool false)))]
    let dimLines :=
      (if jsTruthy comp then
        [(Severity.info, "  Compliance: " ++ jsToString (getPropD comp ("total")) ++ "/100 (" ++ jsToString (getPropD comp ("rating")) ++ ")")]
      else []) ++
      (if jsTruthy tru then
        [(Severity.info, "  Trust: " ++ jsToString (getPropD tru ("total")) ++ "/100 (" ++ jsToString (getPropD tru ("rating")) ++ ")")]
      else []) ++
      (if jsTruthy avail && !(jsIsNull (getPropD avail ("total"))) then
        [(Severity.info, "  Availability: " ++ jsToString (getPropD avail ("total")) ++ "/100 (" ++ jsToString (getPropD avail ("rating")) ++ ")")]
      else [])
    let logs := [(Severity.info, ""), (Severity.info, "📊 Quality Scores:")] ++ dimLines ++
      [(Severity.info, ""), (Severity.info, "🎯 Production Ready: " ++ cond (jsTruthy prodR) ("✅ YES") ("❌ NO"))]
    (outs, logs)
  else
    ([("compliance-score", "N/A"), ("trust-score", "N/A"),
      ("availability-score", "N/A"), ("production-ready", "false")], [])

/-- Final pass/fail decision of the current variant (lines 141–150 of
`src/index.ts`). -/
def outcomeStep (succ errsV warnsV : JsVal) (failOnWarnings : Bool) : JobOutcome × List (Severity × String) :=
  if !(jsTruthy succ) then
    (.failure ("Validation failed with " ++ jsToString (jsOr (optChain errsV ("length")) (.num 0)) ++ " error(s)"), [])
  else if failOnWarnings && (jsTruthy warnsV && jsGtZero (getPropD warnsV ("length"))) then
    (.failure ("Validation passed but found " ++ jsToString (getPropD warnsV ("length")) ++ " warning(s) (fail-on-warnings enabled)"), [])
  else
    (.success, [(Severity.info, ""), (Severity.info, "✅ Validation passed!")])

/-- The current variant after a successful `JSON.parse` (lines 80–158 of
`src/index.ts`).  The only expressions that can throw here are the
plain `result.success` read (when the document is `null`) and the
`forEach` traversals of the findings; a throw is caught by the wrapper,
keeping the outputs and logs already emitted. -/
def interpretParsed (logs0 : List (Severity × String)) (r : JsVal) (failOnWarnings : Bool) : EngineResult :=
  match getProp r ("success") with
  | .error e => { outputs := [], logs := logs0, outcome := .failure e, caught := true }
  | .ok succ =>
    let errsV := getPropD r ("errors")
    let warnsV := getPropD r ("warnings")
    let outs1 := [
      ("result", cond (jsTruthy succ) ("passed") ("failed")),
      ("error-count", jsToString (jsOr (optChain errsV ("length")) (.num 0))),
      ("warning-count", jsToString (jsOr (optChain warnsV ("length")) (.num 0)))]
    let scoring := scoringStep (getPropD r ("scoringResult"))
    let outs := outs1 ++ scoring.1
    let logs1 := logs0 ++ scoring.2
    match findingsStep ("result.errors") errsV Severity.error errHeader with
    | .error e => { outputs := outs, logs := logs1, outcome := .failure e, caught := true }
    | .ok errLines =>
      let logs2 := logs1 ++ errLines
      match findingsStep ("result.warnings") warnsV Severity.warning warnHeader with
      | .error e => { outputs := outs, logs := logs2, outcome := .failure e, caught := true }
      | .ok warnLines =>
        let logs3 := logs2 ++ warnLines
        let oc := outcomeStep succ errsV warnsV failOnWarnings
        { outputs := outs, logs := logs3 ++ oc.2, outcome := oc.1, caught := false }

/-- The debug log lines of `src/index.ts` lines 59–65: the raw captured
streams, each logged when non-empty. -/
def debugLogs (stdout stderr : String) : List (Severity × String) :=
  (if stdout.isEmpty then [] else [(Severity.debug, "CLI Output: " ++ stdout)]) ++
  (if stderr.isEmpty then [] else [(Severity.debug, "CLI Error Output: " ++ stderr)])

/-- The Decision Engine of the current variant, `src/index.ts` lines
59–158: from the captured exit code, stdout and stderr (with `parsed`
the outcome of `JSON.parse stdout` — `none` when parsing threw) to the
emitted outputs, log plan and job outcome. -/
def interpret (exitCode : Int) (stdout stderr : String) (parsed : Option JsVal) (failOnWarnings : Bool) : EngineResult :=
  let logs0 := debugLogs stdout stderr
  match parsed with
  | none =>
    { outputs := [],
      logs := logs0 ++ [(Severity.error, "Failed to parse validation output as JSON"),
        (Severity.error, "Raw output: " ++ stdout),
        (Severity.error, "Error output: " ++ stderr)],
      outcome := .failure ("Validation failed with exit code " ++ toString exitCode),
      caught := false }
  | some r => interpretParsed logs0 r failOnWarnings

/-- One finding rendered by the legacy variant:
`` `  - ${err.message}` `` (line 101 of the legacy file; no `|| err`
fallback). -/
def legacyRenderFinding (f : JsVal) : Except String String :=
  match getProp f ("message") with
  | .error e => .error e
  | .ok m => .ok (jsToString m)

/-- The legacy expression `dim.score.toString()`: a plain `.score` read
(throws on a nullish dimension) followed by a plain `.toString()` call
(throws when the score is nullish, e.g. absent). -/
def legacyScoreStr (dim : JsVal) : Except String String :=
  match getProp dim ("score") with
  | .error e => .error e
  | .ok v => jsCallToString v

/-- Scoring block of the legacy variant (lines 73–94 of the legacy
file).  Unlike the current variant it uses plain accesses (`.score`,
`.productionReady.toString()`) which can throw mid-way — the component
returns the outputs emitted before the throw and the error, if any —
and it has no `else` branch: with `scoringResult` falsy no scoring
output is emitted at all. -/
def legacyScoringStep (sr : JsVal) : List (String × String) × List (Severity × String) × Option String :=
  if jsTruthy sr then
    let comp := getPropD sr ("compliance")
    let tru := getPropD sr ("trust")
    let avail := getPropD sr ("availability")
    let prodR := getPropD sr ("productionReady")
    match legacyScoreStr comp with
    | .error e => ([], [], some e)
    | .ok compStr =>
    match legacyScoreStr tru with
    | .error e => ([("compliance-score", compStr)], [], some e)
    | .ok truStr =>
    match (if jsTruthy avail then legacyScoreStr avail else .ok ("not-tested")) with
    | .error e => ([("compliance-score", compStr), ("trust-score", truStr)], [], some e)
    | .ok availStr =>
    match jsCallToString prodR with
    | .error e =>
      ([("compliance-score", compStr), ("trust-score", truStr), ("availability-score", availStr)], [], some e)
    | .ok prodStr =>
    let outs := [("compliance-score", compStr), ("trust-score", truStr),
      ("availability-score", availStr), ("production-ready", prodStr)]
    let logs := [(Severity.info, ""), (Severity.info, "📊 Quality Scores:"),
      (Severity.info, "  Compliance: " ++ jsToString (getPropD comp ("score")) ++ "/100 (" ++ jsToString (getPropD comp ("rating")) ++ ")"),
      (Severity.info, "  Trust: " ++ jsToString (getPropD tru ("score")) ++ "/100 (" ++ jsToString (getPropD tru ("rating")) ++ ")")] ++
      (if jsTruthy avail then
        [(Severity.info, "  Availability: " ++ jsToString (getPropD avail ("score")) ++ "/100 (" ++ jsToString (getPropD avail ("rating")) ++ ")")]
      else []) ++
      [(Severity.info, ""), (Severity.info, "🎯 Production Ready: " ++ cond (jsTruthy prodR) ("✅ YES") ("❌ NO"))]
    (outs, logs, none)
  else ([], [], none)

/-- Findings display of the legacy variant (lines 97–112 of the legacy
file): guarded by `result.errors.length > 0` alone (the length value
`lenV` was already read — and known non-nullish — while deriving the
counts). -/
def legacyFindingsStep (owner : String) (v lenV : JsVal) (sev : Severity) (mkHeader : String → String) : Except String (List (Severity × String)) :=
  if jsGtZero lenV then
    match forEachRender owner legacyRenderFinding v with
    | .error e => .error e
    | .ok msgs =>
      .ok ((Severity.info, "") :: (sev, mkHeader (jsToString lenV)) :: msgs.map (fun m => (sev, "  - " ++ m)))
  else
    .ok []

/-- The legacy variant after a successful `JSON.parse` (lines 68–130 of
the legacy file).  The counting step uses plain accesses
(`result.errors.length.toString()`), so an absent `errors` or
`warnings` field throws. -/
def legacyInterpretParsed (r : JsVal) (failOnWarnings : Bool) : EngineResult :=
  match getProp r ("valid") with
  | .error e => { outputs := [], logs := [], outcome := .failure e, caught := true }
  | .ok validV =>
  let outs1 := [("result", cond (jsTruthy validV) ("passed") ("failed"))]
  let errsV := getPropD r ("errors")
  let warnsV := getPropD r ("warnings")
  match getProp errsV ("length") with
  | .error e => { outputs := outs1, logs := [], outcome := .failure e, caught := true }
  | .ok errLen =>
  match jsCallToString errLen with
  | .error e => { outputs := outs1, logs := [], outcome := .failure e, caught := true }
  | .ok errLenStr =>
  let outs2 := outs1 ++ [("error-count", errLenStr)]
  match getProp warnsV ("length") with
  | .error e => { outputs := outs2, logs := [], outcome := .failure e, caught := true }
  | .ok warnLen =>
  match jsCallToString warnLen with
  | .error e => { outputs := outs2, logs := [], outcome := .failure e, caught := true }
  | .ok warnLenStr =>
  let outs3 := outs2 ++ [("warning-count", warnLenStr)]
  let scoring := legacyScoringStep (getPropD r ("scoringResult"))
  match scoring.2.2 with
  | some e => { outputs := outs3 ++ scoring.1, logs := [], outcome := .failure e, caught := true }
  | none =>
  let outs := outs3 ++ scoring.1
  let logs1 := scoring.2.1
  match legacyFindingsStep ("result.errors") errsV errLen Severity.error errHeader with
  | .error e => { outputs := outs, logs := logs1, outcome := .failure e, caught := true }
  | .ok errLines =>
  let logs2 := logs1 ++ errLines
  match legacyFindingsStep ("result.warnings") warnsV warnLen Severity.warning warnHeader with
  | .error e => { outputs := outs, logs := logs2, outcome := .failure e, caught := true }
  | .ok warnLines =>
  let logs3 := logs2 ++ warnLines
  let oc :=
    if !(jsTruthy validV) then
      (JobOutcome.failure ("Validation failed with " ++ jsToString errLen ++ " error(s)"), ([] : List (Severity × String)))
    else if failOnWarnings && jsGtZero warnLen then
      (JobOutcome.failure ("Validation passed but found " ++ jsToString warnLen ++ " warning(s) (fail-on-warnings enabled)"), [])
    else
      (JobOutcome.success, [(Severity.info, ""), (Severity.info, "✅ Validation passed!")])
  { outputs := outs, logs := logs3 ++ oc.2, outcome := oc.1, caught := false }

/-- The Decision Engine of the legacy variant (lines 59–131 of the
legacy file).  It writes no debug lines, and its parse-failure message
carries the raw stdout instead of the exit code. -/
def legacyInterpret (exitCode : Int) (stdout stderr : String) (parsed : Option JsVal) (failOnWarnings : Bool) : EngineResult :=
  match parsed with
  | none =>
    { outputs := [], logs := [],
      outcome := .failure ("Failed to parse validation output: " ++ stdout),
      caught := false }
  | some r => legacyInterpretParsed r failOnWarnings

/-- Whether an outcome is a failure. -/
def JobOutcome.isFailure : JobOutcome → Bool
  | .success => false
  | .failure _ => true

/-- A well-formed `Finding` of the data model: an object carrying a
`message` string, or a bare string (treated by the display code through
the `err.message || err` fallback). -/
inductive Finding where
  | mk (message : String)
  | bare (s : String)

/-- The JSON shape of a finding. -/
def Finding.toJs : Finding → JsVal
  | .mk m => .obj [(("message"), .str m)]
  | .bare s => .str s

theorem getProp_obj (fields : List (String × JsVal)) (k : String) :
    getProp (.obj fields) k = .ok (((fields.find? (fun p => p.1 = k)).map (fun p => p.2)).getD .undefined) := rfl

theorem getPropD_obj (fields : List (String × JsVal)) (k : String) :
    getPropD (.obj fields) k = ((fields.find? (fun p => p.1 = k)).map (fun p => p.2)).getD .undefined := rfl

theorem renderFinding_toJs (f : Finding) : ∃ s, renderFinding (Finding.toJs f) = .ok s := by
  cases f with
  | mk m => exact ⟨_, rfl⟩
  | bare s => exact ⟨_, rfl⟩

theorem renderAll_toJs (fs : List Finding) :
    ∃ l, renderAll renderFinding (fs.map Finding.toJs) = .ok l := by
  induction fs with
  | nil => exact ⟨[], rfl⟩
  | cons f fs ih =>
    obtain ⟨s, hs⟩ := renderFinding_toJs f
    obtain ⟨l, hl⟩ := ih
    exact ⟨s :: l, by simp only [List.map_cons, renderAll, hs, hl]⟩

theorem findingsStep_arr_ok (owner : String) (fs : List Finding) (sev : Severity) (hdr : String → String) :
    ∃ ls, findingsStep owner (.arr (fs.map Finding.toJs)) sev hdr = .ok ls := by
  unfold findingsStep
  split
  · obtain ⟨l, hl⟩ := renderAll_toJs fs
    exact ⟨(Severity.info, "") :: (sev, hdr (jsToString (getPropD (.arr (fs.map Finding.toJs)) ("length")))) :: l.map (fun m => (sev, "  - " ++ m)),
      by simp only [forEachRender, hl]⟩
  · exact ⟨[], rfl⟩

theorem findingsStep_undefined (owner : String) (sev : Severity) (hdr : String → String) :
    findingsStep owner .undefined sev hdr = .ok [] := rfl

theorem scoringStep_logs_info (sr : JsVal) :
    ∀ e ∈ (scoringStep sr).2, e.1 = Severity.info := by
  unfold scoringStep
  split_ifs <;> simp <;> tauto

theorem outcomeStep_logs_info (succ errsV warnsV : JsVal) (fow : Bool) :
    ∀ e ∈ (outcomeStep succ errsV warnsV fow).2, e.1 = Severity.info := by
  unfold outcomeStep
  split_ifs <;> simp

theorem debugLogs_sev (stdout stderr : String) :
    ∀ e ∈ debugLogs stdout stderr, e.1 = Severity.debug := by
  unfold debugLogs
  split_ifs <;> simp

theorem policy_msg_ne_semantic_msg (w m : String) :
    ("Validation passed but found " ++ w ++ " warning(s) (fail-on-warnings enabled)")
      ≠ ("Validation failed with " ++ m ++ " error(s)") := by
  intro h
  have hd := congrArg String.data h
  simp only [String.data_append] at hd
  simp at hd

/-- Claim C2, counterexample: on unparseable stdout, the current engine's
failure-outcome message is "Validation failed with exit code 1", which is
not the message "Failed to parse validation output" the claim states
(nor an extension of it — its first 33 characters differ from that
phrase). -/
theorem c2_parse_failure_counterexample :
    (interpret 1 ("not json") ("boom") none false).outcome
        = JobOutcome.failure ("Validation failed with exit code 1")
    ∧ ("Validation failed with exit code 1").data.take 33 ≠ ("Failed to parse validation output").data :=
  ⟨rfl, by decide⟩

/-- Claim C2, amended: for every stdout that is not parseable as JSON,
the engine returns a defined failure outcome whose message is
"Validation failed with exit code N"; the phrase
"Failed to parse validation output as JSON" appears as an error log
line, together with error lines carrying the raw stdout and stderr; the
OutputSet is empty and no unhandled fault occurs (the catch handler is
not even involved). -/
theorem c2_parse_failure_amended (exitCode : Int) (stdout stderr : String) (fow : Bool) :
    (interpret exitCode stdout stderr none fow).outputs = []
    ∧ (interpret exitCode stdout stderr none fow).caught = false
    ∧ (interpret exitCode stdout stderr none fow).outcome
        = JobOutcome.failure ("Validation failed with exit code " ++ toString exitCode)
    ∧ (Severity.error, ("Failed to parse validation output as JSON")) ∈ (interpret exitCode stdout stderr none fow).logs
    ∧ (Severity.error, "Raw output: " ++ stdout) ∈ (interpret exitCode stdout stderr none fow).logs
    ∧ (Severity.error, "Error output: " ++ stderr) ∈ (interpret exitCode stdout stderr none fow).logs := by
  refine ⟨rfl, rfl, rfl, ?_, ?_, ?_⟩ <;> simp [interpret, debugLogs]

/-- Claim C3, counterexample: the current engine does not fall back to
the legacy key `valid`; a document carrying only `valid: true` yields
the `result` output "failed" and a failing outcome, unlike a
document carrying `success: true`, which yields "passed" and
success. -/
theorem c3_legacy_key_counterexample :
    getOutput (interpret 0 ("o") ("") (some (JsVal.obj [(("valid"), JsVal.bool true)])) false) ("result") = some ("failed")
    ∧ (interpret 0 ("o") ("") (some (JsVal.obj [(("valid"), JsVal.bool true)])) false).outcome
        = JobOutcome.failure ("Validation failed with 0 error(s)")
    ∧ getOutput (interpret 0 ("o") ("") (some (JsVal.obj [(("success"), JsVal.bool true)])) false) ("result") = some ("passed")
    ∧ (interpret 0 ("o") ("") (some (JsVal.obj [(("success"), JsVal.bool true)])) false).outcome = JobOutcome.success :=
  ⟨rfl, rfl, rfl, rfl⟩

/-- Claim C3, amended: each variant resolves the pass/fail indicator
from exactly one key and never from the other.  The current engine reads
`success` (a document carrying only `valid` always yields "failed"),
while the legacy variant conversely reads `valid` (a document carrying
only `success` yields "failed" there). -/
theorem c3_amended (b : Bool) :
    getOutput (interpret 0 ("o") ("") (some (JsVal.obj [(("valid"), JsVal.bool b)])) false) ("result") = some ("failed")
    ∧ getOutput (interpret 0 ("o") ("") (some (JsVal.obj [(("success"), JsVal.bool b)])) false) ("result")
        = some (cond b ("passed") ("failed"))
    ∧ getOutput (legacyInterpret 0 ("o") ("") (some (JsVal.obj [(("valid"), JsVal.bool b), (("errors"), JsVal.arr []), (("warnings"), JsVal.arr [])])) false) ("result")
        = some (cond b ("passed") ("failed"))
    ∧ getOutput (legacyInterpret 0 ("o") ("") (some (JsVal.obj [(("success"), JsVal.bool true), (("errors"), JsVal.arr []), (("warnings"), JsVal.arr [])])) false) ("result") = some ("failed") := by
  cases b <;> exact ⟨rfl, rfl, rfl, rfl⟩

/-- Claim C6, counterexample: the current engine reads only the field
name `total` for a score dimension; a compliance dimension carrying the
value 90 under the name `score` is rendered as "0", not "90". -/
theorem c6_score_field_counterexample :
    getOutput (interpret 0 ("o") ("") (some (JsVal.obj [(("success"), JsVal.bool true),
        (("scoringResult"), JsVal.obj [(("compliance"), JsVal.obj [(("score"), JsVal.num 90), (("rating"), JsVal.str ("A"))])])])) false) ("compliance-score")
      = some ("0")
    ∧ (some ("0") : Option String) ≠ some ("90") :=
  ⟨rfl, by decide⟩

/-- Claim C6, amended: neither variant reads "whichever of `score` or
`total` is present" — each reads exactly one name.  The current engine
renders the `total` field (90 ↦ "90") and falls back to the literal "0"
when a dimension carries only `score`; the legacy variant conversely
renders `score`, and on a dimension carrying only `total` its plain
`.score.toString()` access throws, caught as a generic failure. -/
theorem c6_amended :
    getOutput (interpret 0 ("o") ("") (some (JsVal.obj [(("success"), JsVal.bool true),
        (("scoringResult"), JsVal.obj [(("compliance"), JsVal.obj [(("total"), JsVal.num 90)])])])) false) ("compliance-score") = some ("90")
    ∧ getOutput (interpret 0 ("o") ("") (some (JsVal.obj [(("success"), JsVal.bool true),
        (("scoringResult"), JsVal.obj [(("compliance"), JsVal.obj [(("score"), JsVal.num 90)])])])) false) ("compliance-score") = some ("0")
    ∧ getOutput (legacyInterpret 0 ("o") ("") (some (JsVal.obj [(("valid"), JsVal.bool true), (("errors"), JsVal.arr []), (("warnings"), JsVal.arr []),
        (("scoringResult"), JsVal.obj [(("compliance"), JsVal.obj [(("score"), JsVal.num 90), (("rating"), JsVal.str ("A"))]),
          (("trust"), JsVal.obj [(("score"), JsVal.num 85), (("rating"), JsVal.str ("B"))]),
          (("productionReady"), JsVal.bool true)])])) false) ("compliance-score") = some ("90")
    ∧ (legacyInterpret 0 ("o") ("") (some (JsVal.obj [(("valid"), JsVal.bool true), (("errors"), JsVal.arr []), (("warnings"), JsVal.arr []),
        (("scoringResult"), JsVal.obj [(("compliance"), JsVal.obj [(("total"), JsVal.num 90)])])])) false).caught = true :=
  ⟨rfl, rfl, rfl, rfl⟩

/-- Claim C8: once stdout parses as JSON, the exit code influences
nothing — two runs of the engine that differ only in the exit code
produce identical outputs, identical logs and identical outcomes (the
whole result coincides definitionally). -/
theorem c8_exit_code_irrelevant_when_parsed (ec1 ec2 : Int) (stdout stderr : String) (v : JsVal) (fow : Bool) :
    interpret ec1 stdout stderr (some v) fow = interpret ec2 stdout stderr (some v) fow := rfl

/-- Claim C10, counterexample: stdout "true" is valid JSON and not an
object, yet no field access faults — the engine runs to completion
(catch handler unused) and does emit the named outputs, with `result`
"failed". -/
theorem c10_nonobject_counterexample :
    (interpret 0 ("true") ("") (some (JsVal.bool true)) false).caught = false
    ∧ getOutput (interpret 0 ("true") ("") (some (JsVal.bool true)) false) ("result") = some ("failed")
    ∧ (interpret 0 ("true") ("") (some (JsVal.bool true)) false).outputs ≠ [] :=
  ⟨rfl, rfl, by decide⟩

/-- Claim C10, amended: only for the JSON document `null` does the
field access fault: the parse step succeeds, reading `.success` throws,
the top-level handler catches it, the job fails with the generic
TypeError message, and no named output is emitted. -/
theorem c10_null_amended :
    (interpret 0 ("null") ("") (some JsVal.null) false).outputs = []
    ∧ (interpret 0 ("null") ("") (some JsVal.null) false).caught = true
    ∧ (interpret 0 ("null") ("") (some JsVal.null) false).outcome
        = JobOutcome.failure ("Cannot read properties of null (reading success)") :=
  ⟨rfl, rfl, rfl⟩

theorem toString_int_ofNat (n : Nat) : toString ((n : Nat) : Int) = toString n := rfl

theorem jsTruthy_arr (vs : List JsVal) : jsTruthy (.arr vs) = true := rfl

theorem getPropD_arr_length (vs : List JsVal) : getPropD (.arr vs) ("length") = .num vs.length := rfl

theorem jsToString_num (n : Int) : jsToString (.num n) = toString n := rfl

theorem interpretParsed_ok (logs0 : List (Severity × String)) (r : JsVal) (fow : Bool) (succ : JsVal)
    (le lw : List (Severity × String))
    (hs : getProp r ("success") = .ok succ)
    (he : findingsStep ("result.errors") (getPropD r ("errors")) Severity.error errHeader = .ok le)
    (hw : findingsStep ("result.warnings") (getPropD r ("warnings")) Severity.warning warnHeader = .ok lw) :
    interpretParsed logs0 r fow =
      { outputs := [(("result"), cond (jsTruthy succ) ("passed") ("failed")),
          (("error-count"), jsToString (jsOr (optChain (getPropD r ("errors")) ("length")) (.num 0))),
          (("warning-count"), jsToString (jsOr (optChain (getPropD r ("warnings")) ("length")) (.num 0)))]
          ++ (scoringStep (getPropD r ("scoringResult"))).1,
        logs := logs0 ++ (scoringStep (getPropD r ("scoringResult"))).2 ++ le ++ lw
          ++ (outcomeStep succ (getPropD r ("errors")) (getPropD r ("warnings")) fow).2,
        outcome := (outcomeStep succ (getPropD r ("errors")) (getPropD r ("warnings")) fow).1,
        caught := false } := by
  simp only [interpretParsed, hs, he, hw]

theorem interpretParsed_outputs (logs0 : List (Severity × String)) (r : JsVal) (fow : Bool) (succ : JsVal)
    (hs : getProp r ("success") = .ok succ) :
    (interpretParsed logs0 r fow).outputs =
      [(("result"), cond (jsTruthy succ) ("passed") ("failed")),
        (("error-count"), jsToString (jsOr (optChain (getPropD r ("errors")) ("length")) (.num 0))),
        (("warning-count"), jsToString (jsOr (optChain (getPropD r ("warnings")) ("length")) (.num 0)))]
        ++ (scoringStep (getPropD r ("scoringResult"))).1 := by
  simp only [interpretParsed, hs]
  split
  · rfl
  · split
    · rfl
    · rfl

/-- Claim C1: a parsed document whose pass/fail field (the `success`
property the current engine reads) is not truthy never yields a
successful job outcome, whatever the `fail-on-warnings` policy and the
rest of the document: every branch of the engine — including the throw
paths caught by the handler — ends in a failure. -/
theorem c1_success_false_never_succeeds (ec : Int) (stdout stderr : String) (r : JsVal) (fow : Bool)
    (h : jsTruthy (getPropD r ("success")) = false) :
    ((interpret ec stdout stderr (some r) fow).outcome).isFailure = true := by
  show ((interpretParsed (debugLogs stdout stderr) r fow).outcome).isFailure = true
  cases hs : getProp r ("success") with
  | error e => simp [interpretParsed, hs, JobOutcome.isFailure]
  | ok succ =>
    have ht : jsTruthy succ = false := by
      have h2 : getPropD r ("success") = succ := by simp [getPropD, hs, Except.toOption]
      rwa [h2] at h
    simp only [interpretParsed, hs]
    split
    · simp [JobOutcome.isFailure]
    · split
      · simp [JobOutcome.isFailure]
      · simp [outcomeStep, ht, JobOutcome.isFailure]

/-- Witness for C1 at the document with `success: false` and the
`fail-on-warnings` policy enabled. -/
theorem c1_witness :
    jsTruthy (getPropD (JsVal.obj [(("success"), JsVal.bool false)]) ("success")) = false
    ∧ ((interpret 0 ("o") ("") (some (JsVal.obj [(("success"), JsVal.bool false)])) true).outcome).isFailure = true :=
  ⟨rfl, c1_success_false_never_succeeds 0 ("o") ("") (JsVal.obj [(("success"), JsVal.bool false)]) true rfl⟩

/-- Claim C4: a well-formed document with truthy `success`, a non-empty
warnings sequence of findings, under `failOnWarnings = true`, fails with
the message "Validation passed but found N warning(s)
(fail-on-warnings enabled)" — which carries the warning count and names
the policy switch — and that message is distinct from every instance of
the semantic-failure message "Validation failed with M error(s)". -/
theorem c4_fail_on_warnings_distinct (ec : Int) (stdout stderr : String) (sv sc : JsVal) (es ws : List Finding)
    (hsv : jsTruthy sv = true) (hws : ws ≠ []) :
    (interpret ec stdout stderr (some (JsVal.obj [(("success"), sv), (("errors"), JsVal.arr (es.map Finding.toJs)),
        (("warnings"), JsVal.arr (ws.map Finding.toJs)), (("scoringResult"), sc)])) true).outcome
      = JobOutcome.failure ("Validation passed but found " ++ toString ws.length ++ " warning(s) (fail-on-warnings enabled)")
    ∧ ∀ m : String, ("Validation passed but found " ++ toString ws.length ++ " warning(s) (fail-on-warnings enabled)")
        ≠ ("Validation failed with " ++ m ++ " error(s)") := by
  refine ⟨?_, fun m => policy_msg_ne_semantic_msg _ m⟩
  obtain ⟨le, hle⟩ := findingsStep_arr_ok ("result.errors") es Severity.error errHeader
  obtain ⟨lw, hlw⟩ := findingsStep_arr_ok ("result.warnings") ws Severity.warning warnHeader
  have hr := interpretParsed_ok (debugLogs stdout stderr)
    (JsVal.obj [(("success"), sv), (("errors"), JsVal.arr (es.map Finding.toJs)),
      (("warnings"), JsVal.arr (ws.map Finding.toJs)), (("scoringResult"), sc)]) true sv le lw rfl hle hlw
  show ((interpretParsed (debugLogs stdout stderr) _ true).outcome) = _
  rw [hr]
  have hw2 : getPropD (JsVal.obj [(("success"), sv), (("errors"), JsVal.arr (es.map Finding.toJs)),
      (("warnings"), JsVal.arr (ws.map Finding.toJs)), (("scoringResult"), sc)]) ("warnings")
      = JsVal.arr (ws.map Finding.toJs) := rfl
  have hgt : jsGtZero (JsVal.num (ws.length : Int)) = true := by
    show decide (0 < ((ws.length : Nat) : Int)) = true
    simpa [Int.natCast_pos, List.length_pos] using hws
  rw [hw2]
  simp [outcomeStep, hsv, hgt, jsTruthy_arr, getPropD_arr_length, List.length_map, jsToString_num,
    toString_int_ofNat]

/-- Witness for C4 at `success: true`, one warning finding, policy
enabled. -/
theorem c4_witness :
    jsTruthy (JsVal.bool true) = true
    ∧ ([Finding.mk ("w")] : List Finding) ≠ []
    ∧ (interpret 0 ("o") ("") (some (JsVal.obj [(("success"), JsVal.bool true),
        (("errors"), JsVal.arr (([] : List Finding).map Finding.toJs)),
        (("warnings"), JsVal.arr ([Finding.mk ("w")].map Finding.toJs)),
        (("scoringResult"), JsVal.undefined)])) true).outcome
      = JobOutcome.failure ("Validation passed but found " ++ toString ([Finding.mk ("w")] : List Finding).length ++ " warning(s) (fail-on-warnings enabled)") :=
  ⟨rfl, by simp,
    (c4_fail_on_warnings_distinct 0 ("o") ("") (JsVal.bool true) JsVal.undefined [] [Finding.mk ("w")] rfl (by simp)).1⟩

/-- Claim C5: when the parsed document has no `scoringResult` field, the
engine emits the sentinel "N/A" for `compliance-score`, `trust-score`
and `availability-score`, and the string "false" for
`production-ready`. -/
theorem c5_scoring_absent_sentinels (ec : Int) (stdout stderr : String) (fields : List (String × JsVal)) (fow : Bool)
    (h : fields.find? (fun p => p.1 = ("scoringResult")) = none) :
    getOutput (interpret ec stdout stderr (some (.obj fields)) fow) ("compliance-score") = some ("N/A")
    ∧ getOutput (interpret ec stdout stderr (some (.obj fields)) fow) ("trust-score") = some ("N/A")
    ∧ getOutput (interpret ec stdout stderr (some (.obj fields)) fow) ("availability-score") = some ("N/A")
    ∧ getOutput (interpret ec stdout stderr (some (.obj fields)) fow) ("production-ready") = some ("false") := by
  have hsr : getPropD (JsVal.obj fields) ("scoringResult") = .undefined := by
    rw [getPropD_obj, h]; rfl
  have houts := interpretParsed_outputs (debugLogs stdout stderr) (JsVal.obj fields) fow _ (getProp_obj fields ("success"))
  rw [hsr] at houts
  have hi : interpret ec stdout stderr (some (JsVal.obj fields)) fow = interpretParsed (debugLogs stdout stderr) (JsVal.obj fields) fow := rfl
  refine ⟨?_, ?_, ?_, ?_⟩ <;> simp only [getOutput, hi, houts] <;> rfl

/-- Witness for C5 at a document with only a `success` field. -/
theorem c5_witness :
    ([(("success"), JsVal.bool true)] : List (String × JsVal)).find? (fun p => p.1 = ("scoringResult")) = none
    ∧ getOutput (interpret 0 ("o") ("") (some (.obj [(("success"), JsVal.bool true)])) false) ("compliance-score") = some ("N/A") :=
  ⟨rfl, (c5_scoring_absent_sentinels 0 ("o") ("") [(("success"), JsVal.bool true)] false rfl).1⟩

theorem findingsStep_ok_sev (owner : String) (v : JsVal) (sev : Severity) (hdr : String → String)
    (ls : List (Severity × String)) (h : findingsStep owner v sev hdr = .ok ls) :
    ∀ e ∈ ls, e.1 = Severity.info ∨ e.1 = sev := by
  unfold findingsStep at h
  split at h
  · rcases hfr : forEachRender owner renderFinding v with e2 | msgs
    all_goals simp only [hfr] at h
    · exact Except.noConfusion h
    · injection h with h2
      subst h2
      intro e he
      simp only [List.mem_cons, List.mem_map] at he
      rcases he with rfl | rfl | ⟨m, hm, rfl⟩
      · exact Or.inl rfl
      · exact Or.inr rfl
      · exact Or.inr rfl
  · injection h with h2
    subst h2
    intro e he
    cases he

theorem interpretParsed_logs_sev (logs0 : List (Severity × String)) (r : JsVal) (fow : Bool) (succ : JsVal)
    (hs : getProp r ("success") = .ok succ) :
    ∀ e ∈ (interpretParsed logs0 r fow).logs,
      e ∈ logs0 ∨ e.1 = Severity.info
      ∨ (∃ ls, findingsStep ("result.errors") (getPropD r ("errors")) Severity.error errHeader = .ok ls ∧ e ∈ ls)
      ∨ (∃ ls, findingsStep ("result.warnings") (getPropD r ("warnings")) Severity.warning warnHeader = .ok ls ∧ e ∈ ls) := by
  intro e he
  simp only [interpretParsed, hs] at he
  rcases hfe : findingsStep ("result.errors") (getPropD r ("errors")) Severity.error errHeader with e1 | le
  all_goals simp only [hfe] at he
  · rcases List.mem_append.mp he with hm | hm
    · exact Or.inl hm
    · exact Or.inr (Or.inl (scoringStep_logs_info _ e hm))
  · rcases hfw : findingsStep ("result.warnings") (getPropD r ("warnings")) Severity.warning warnHeader with e2 | lw
    all_goals simp only [hfw] at he
    · rcases List.mem_append.mp he with hm | hm
      · rcases List.mem_append.mp hm with hm2 | hm2
        · exact Or.inl hm2
        · exact Or.inr (Or.inl (scoringStep_logs_info _ e hm2))
      · exact Or.inr (Or.inr (Or.inl ⟨le, rfl, hm⟩))
    · rcases List.mem_append.mp he with hm | hm
      · rcases List.mem_append.mp hm with hm2 | hm2
        · rcases List.mem_append.mp hm2 with hm3 | hm3
          · rcases List.mem_append.mp hm3 with hm4 | hm4
            · exact Or.inl hm4
            · exact Or.inr (Or.inl (scoringStep_logs_info _ e hm4))
          · exact Or.inr (Or.inr (Or.inl ⟨le, rfl, hm3⟩))
        · exact Or.inr (Or.inr (Or.inr ⟨lw, rfl, hm2⟩))
      · exact Or.inr (Or.inl (outcomeStep_logs_info _ _ _ _ e hm))

/-- Claim C7: per missing field — whenever the parsed document lacks the
`errors` field, the `error-count` output is the string "0", the errors
display step completes without a fault and contributes no log line (its
result is `ok []`), and no error-severity line appears anywhere in the
log plan; symmetrically for a missing `warnings` field and
warning-severity lines.  The other findings field may hold anything. -/
theorem c7_missing_findings_are_empty (ec : Int) (stdout stderr : String) (fields : List (String × JsVal)) (fow : Bool) :
    (fields.find? (fun p => p.1 = ("errors")) = none →
      getOutput (interpret ec stdout stderr (some (.obj fields)) fow) ("error-count") = some ("0")
      ∧ findingsStep ("result.errors") (getPropD (JsVal.obj fields) ("errors")) Severity.error errHeader = .ok []
      ∧ ∀ e ∈ (interpret ec stdout stderr (some (.obj fields)) fow).logs, e.1 ≠ Severity.error)
    ∧ (fields.find? (fun p => p.1 = ("warnings")) = none →
      getOutput (interpret ec stdout stderr (some (.obj fields)) fow) ("warning-count") = some ("0")
      ∧ findingsStep ("result.warnings") (getPropD (JsVal.obj fields) ("warnings")) Severity.warning warnHeader = .ok []
      ∧ ∀ e ∈ (interpret ec stdout stderr (some (.obj fields)) fow).logs, e.1 ≠ Severity.warning) := by
  have houts := interpretParsed_outputs (debugLogs stdout stderr) (JsVal.obj fields) fow _ (getProp_obj fields ("success"))
  have hi : interpret ec stdout stderr (some (JsVal.obj fields)) fow = interpretParsed (debugLogs stdout stderr) (JsVal.obj fields) fow := rfl
  constructor
  · intro he
    have herr : getPropD (JsVal.obj fields) ("errors") = .undefined := by rw [getPropD_obj, he]; rfl
    have hfe : findingsStep ("result.errors") (getPropD (JsVal.obj fields) ("errors")) Severity.error errHeader = .ok [] := by
      rw [herr]; rfl
    refine ⟨?_, hfe, ?_⟩
    · simp only [getOutput, hi, houts, herr]; rfl
    · intro e hmem
      rw [hi] at hmem
      rcases interpretParsed_logs_sev (debugLogs stdout stderr) (JsVal.obj fields) fow _ (getProp_obj fields ("success")) e hmem with hm | hm | ⟨ls, hls, hin⟩ | ⟨ls, hls, hin⟩
      · rw [debugLogs_sev _ _ e hm]; decide
      · rw [hm]; decide
      · have h2 := hfe.symm.trans hls
        injection h2 with h3
        subst h3
        cases hin
      · rcases findingsStep_ok_sev _ _ _ _ _ hls e hin with h | h <;> rw [h] <;> decide
  · intro hw
    have hwarn : getPropD (JsVal.obj fields) ("warnings") = .undefined := by rw [getPropD_obj, hw]; rfl
    have hfw : findingsStep ("result.warnings") (getPropD (JsVal.obj fields) ("warnings")) Severity.warning warnHeader = .ok [] := by
      rw [hwarn]; rfl
    refine ⟨?_, hfw, ?_⟩
    · simp only [getOutput, hi, houts, hwarn]; rfl
    · intro e hmem
      rw [hi] at hmem
      rcases interpretParsed_logs_sev (debugLogs stdout stderr) (JsVal.obj fields) fow _ (getProp_obj fields ("success")) e hmem with hm | hm | ⟨ls, hls, hin⟩ | ⟨ls, hls, hin⟩
      · rw [debugLogs_sev _ _ e hm]; decide
      · rw [hm]; decide
      · rcases findingsStep_ok_sev _ _ _ _ _ hls e hin with h | h <;> rw [h] <;> decide
      · have h2 := hfw.symm.trans hls
        injection h2 with h3
        subst h3
        cases hin

/-- Witness for C7 at a document with `errors` absent while `warnings`
holds one finding object. -/
theorem c7_witness :
    ([(("success"), JsVal.bool true), (("warnings"), JsVal.arr [JsVal.obj [(("message"), JsVal.str ("w"))]])] : List (String × JsVal)).find? (fun p => p.1 = ("errors")) = none
    ∧ getOutput (interpret 0 ("o") ("") (some (.obj [(("success"), JsVal.bool true), (("warnings"), JsVal.arr [JsVal.obj [(("message"), JsVal.str ("w"))]])])) false) ("error-count") = some ("0") :=
  ⟨rfl, ((c7_missing_findings_are_empty 0 ("o") ("") [(("success"), JsVal.bool true), (("warnings"), JsVal.arr [JsVal.obj [(("message"), JsVal.str ("w"))]])] false).1 rfl).1⟩

/-- Claim C9: per dimension — when `scoringResult` is present and the
compliance (resp. trust) dimension's numeric `total` is
absent/undefined (or the whole dimension is), the engine emits the
literal "0" for `compliance-score` (resp. `trust-score`) — not "N/A"
and without a fault (the scoring step of the current variant cannot
throw); the other dimension is unconstrained. -/
theorem c9_missing_dimension_value_zero (ec : Int) (stdout stderr : String) (fields sfs : List (String × JsVal)) (fow : Bool)
    (hsr : fields.find? (fun p => p.1 = ("scoringResult")) = some (("scoringResult"), JsVal.obj sfs)) :
    (isNullish (optChain (getPropD (JsVal.obj sfs) ("compliance")) ("total")) = true →
      getOutput (interpret ec stdout stderr (some (.obj fields)) fow) ("compliance-score") = some ("0"))
    ∧ (isNullish (optChain (getPropD (JsVal.obj sfs) ("trust")) ("total")) = true →
      getOutput (interpret ec stdout stderr (some (.obj fields)) fow) ("trust-score") = some ("0")) := by
  have hsr2 : getPropD (JsVal.obj fields) ("scoringResult") = JsVal.obj sfs := by
    rw [getPropD_obj, hsr]; rfl
  have houts := interpretParsed_outputs (debugLogs stdout stderr) (JsVal.obj fields) fow _ (getProp_obj fields ("success"))
  rw [hsr2] at houts
  have hs1 : (scoringStep (JsVal.obj sfs)).1 = [
      (("compliance-score"), jsToString (jsOr (optToStr (optChain (getPropD (JsVal.obj sfs) ("compliance")) ("total"))) (.str "0"))),
      (("trust-score"), jsToString (jsOr (optToStr (optChain (getPropD (JsVal.obj sfs) ("trust")) ("total"))) (.str "0"))),
      (("availability-score"), jsToString (jsOr (optToStr (optChain (getPropD (JsVal.obj sfs) ("availability")) ("total"))) (.str "not-tested"))),
      (("production-ready"), jsToString (jsOr (getPropD (JsVal.obj sfs) ("productionReady")) (.bool false)))] := rfl
  rw [hs1] at houts
  have hi : interpret ec stdout stderr (some (JsVal.obj fields)) fow = interpretParsed (debugLogs stdout stderr) (JsVal.obj fields) fow := rfl
  constructor
  · intro hc
    have hv1 : optToStr (optChain (getPropD (JsVal.obj sfs) ("compliance")) ("total")) = .undefined := by
      simp [optToStr, hc]
    rw [hv1] at houts
    simp only [getOutput, hi, houts]
    rfl
  · intro ht
    have hv2 : optToStr (optChain (getPropD (JsVal.obj sfs) ("trust")) ("total")) = .undefined := by
      simp [optToStr, ht]
    rw [hv2] at houts
    simp only [getOutput, hi, houts]
    rfl

/-- Witness for C9 at the mixed document whose compliance dimension is
absent while `trust.total` is 85. -/
theorem c9_witness :
    ([(("scoringResult"), JsVal.obj [(("trust"), JsVal.obj [(("total"), JsVal.num 85)])])] : List (String × JsVal)).find? (fun p => p.1 = ("scoringResult"))
        = some (("scoringResult"), JsVal.obj [(("trust"), JsVal.obj [(("total"), JsVal.num 85)])])
    ∧ isNullish (optChain (getPropD (JsVal.obj [(("trust"), JsVal.obj [(("total"), JsVal.num 85)])]) ("compliance")) ("total")) = true
    ∧ getOutput (interpret 0 ("o") ("") (some (.obj [(("scoringResult"), JsVal.obj [(("trust"), JsVal.obj [(("total"), JsVal.num 85)])])])) false) ("compliance-score") = some ("0") :=
  ⟨rfl, rfl,
    (c9_missing_dimension_value_zero 0 ("o") ("") [(("scoringResult"), JsVal.obj [(("trust"), JsVal.obj [(("total"), JsVal.num 85)])])] [(("trust"), JsVal.obj [(("total"), JsVal.num 85)])] false rfl).1 rfl⟩
